import Mathlib

/-!
Verification development for the bioimage-io chatbot core
(`scripts/start-bioimageio-chatbot.py` and
`bioimageio_chatbot/chatbot_extensions/docs_extension.py`).

The Python code is shallowly embedded: the `exec`-based script sandbox is
modelled by a small imperative command language over an explicit heap (so
that Python object aliasing and in-place mutation are visible), the router
is a function from the already-classified dispatch decision (the LLM call
is opaque and injected as oracle functions), and the vector-store
similarity search (an external library, declared out of scope by the
design document) is modelled from its stated contract.
-/

namespace BioChatbot

/-! ## Python values, heap and environments

A Python object reachable from the sandbox bindings is either an immutable
scalar (string or number) or a reference to a mutable list living in a
heap. The heap models Python object identity: `dict.copy()` copies the
key-to-value mapping but not the objects the values reference. -/

inductive Value where
  | str : String → Value
  | num : Int → Value
  | ref : Nat → Value
deriving DecidableEq, Repr

/-- The mutable store: address `a` holds the list object `heap[a]`. -/
abbrev Heap := List (List Value)

/-- A Python namespace / dict from names to values (first match wins;
dicts are only built by `dictInsert`, which keeps keys unique). -/
abbrev Env := List (String × Value)

def envGet : Env → String → Option Value
  | [], _ => none
  | (k, v) :: rest, key => if k = key then some v else envGet rest key

def envSet : Env → String → Value → Env
  | [], k, v => [(k, v)]
  | (k1, v1) :: rest, k, v =>
    if k1 = k then (k1, v) :: rest else (k1, v1) :: envSet rest k v

/-! ## The sandboxed script language

`execute_code` runs an arbitrary Python script via `exec`. We model the
scripts the claims quantify over: printing to standard output, raising an
`Exception` carrying a message (`str(e)` is exactly that message, and is
empty for an exception constructed with no argument), re-binding a local
variable, and mutating in place a list object reachable from a variable
(`resources.append(x)`). -/

inductive Cmd where
  | print : String → Cmd
  | raiseExc : String → Cmd
  | assign : String → Value → Cmd
  | append : String → Value → Cmd
deriving DecidableEq, Repr

/-- How a script run ended: ran to completion with a final namespace, or
was stopped by an exception carrying the given message. -/
inductive ScriptHalt where
  | completed : Env → ScriptHalt
  | faulted : String → ScriptHalt
deriving DecidableEq, Repr

structure RunResult where
  heap : Heap
  out : String
  halt : ScriptHalt
deriving DecidableEq, Repr

/-- Semantics of `exec(script, local_vars)`: commands run in order; `print`
appends the text and a newline to the captured stream; an exception stops
the run keeping the output and heap mutations made so far; `append`
mutates the heap cell the variable points to (object aliasing). -/
def runScript : List Cmd → Env → Heap → String → RunResult
  | [], env, heap, out => { heap := heap, out := out, halt := .completed env }
  | Cmd.print s :: rest, env, heap, out =>
      runScript rest env heap (out ++ s ++ "\n")
  | Cmd.raiseExc msg :: _, _, heap, out =>
      { heap := heap, out := out, halt := .faulted msg }
  | Cmd.assign x v :: rest, env, heap, out =>
      runScript rest (envSet env x v) heap out
  | Cmd.append x v :: rest, env, heap, out =>
      match envGet env x with
      | some (Value.ref a) =>
          match heap.get? a with
          | some cell => runScript rest env (heap.set a (cell ++ [v])) out
          | none => { heap := heap, out := out, halt := .faulted "invalid reference" }
      | _ => { heap := heap, out := out, halt := .faulted "object has no attribute append" }

/-! ## The process state and `execute_code` -/

/-- The interpreter stream registers `sys.stdout` / `sys.stderr`, as
abstract stream handles; `nextHandle` supplies fresh handles for the
`io.StringIO()` objects the sandbox redirects to. -/
structure ProcState where
  sysStdout : Nat
  sysStderr : Nat
  nextHandle : Nat
deriving DecidableEq, Repr

structure ExecResult where
  stdout : String
  stderr : String
deriving DecidableEq, Repr

structure ExecOutcome where
  result : ExecResult
  heap : Heap
  proc : ProcState
deriving DecidableEq, Repr

/-- Embedding of `execute_code(script, context)`: saves the stream
registers, redirects them to fresh capture buffers, runs the script on a
copy of `context` (`context.copy()` — the mapping is copied, the heap
objects it references are shared), catches any exception into
`stderr = str(e)` with `stdout` reset to the empty string, and in the
`finally` block restores both stream registers. -/
def execute_code (script : List Cmd) (context : Env) (heap : Heap)
    (st : ProcState) : ExecOutcome :=
  let original_stdout := st.sysStdout
  let original_stderr := st.sysStderr
  let redirected : ProcState :=
    { sysStdout := st.nextHandle, sysStderr := st.nextHandle + 1,
      nextHandle := st.nextHandle + 2 }
  let local_vars := context
  let run := runScript script local_vars heap ""
  let result : ExecResult :=
    match run.halt with
    | .completed _ => { stdout := run.out, stderr := "" }
    | .faulted msg => { stdout := "", stderr := msg }
  { result := result,
    heap := run.heap,
    proc := { redirected with
                sysStdout := original_stdout, sysStderr := original_stderr } }

/-- A convenient initial process state. -/
def procInit : ProcState := { sysStdout := 0, sysStderr := 1, nextHandle := 2 }

/-- A command that mutates a heap object in place (`list.append`). -/
def mutatesHeap : Cmd → Bool
  | Cmd.append _ _ => true
  | _ => false

/-! ## String-keyed dicts (Python `dict` built by comprehension) -/

def dictGet {α : Type} : List (String × α) → String → Option α
  | [], _ => none
  | (k, v) :: rest, key => if k = key then some v else dictGet rest key

def dictInsert {α : Type} : List (String × α) → String → α → List (String × α)
  | [], k, v => [(k, v)]
  | (k1, v1) :: rest, k, v =>
    if k1 = k then (k1, v) :: rest else (k1, v1) :: dictInsert rest k v

/-! ## Knowledge base and similarity search

The vector index is an external library (FAISS), declared out of scope by
the design document. A knowledge base is modelled as the list of its
documents, each carrying its relevance score for the query at hand. -/

structure ScoredDoc where
  page_content : String
  score : Int
  metadata : List (String × String) := []
deriving DecidableEq, Repr

/-- Ranking relation: `scoreGE a b` holds when `a` is at least as relevant
as `b`. -/
def scoreGE (a b : ScoredDoc) : Prop := b.score ≤ a.score

instance : DecidableRel scoreGE := fun a b => inferInstanceAs (Decidable (b.score ≤ a.score))

instance : IsTotal ScoredDoc scoreGE := ⟨fun a b => (le_total b.score a.score).imp id id⟩

instance : IsTrans ScoredDoc scoreGE := ⟨fun _ _ _ hab hbc => le_trans hbc hab⟩

/-- Modelled from the spec: the similarity-search index (an opaque
external collaborator, `FAISS.asimilarity_search`) returns the documents
most relevant to the query, ordered by descending relevance score, at most
`k` of them. The store is the per-query scored view of the collection; the
query string itself does not otherwise enter the model. -/
def asimilarity_search (store : List ScoredDoc) (_query : String) (k : Nat) :
    List ScoredDoc :=
  (store.insertionSort scoreGE).take k

/-! ## Router / dispatcher (`respond_to_user`)

The classification LLM call (`role.aask`) is opaque: the router is
modelled as a function of the already-produced `DispatchDecision`, with
the two synthesis calls injected as oracle functions. The side effects a
branch performs (registry lookup, similarity search, script execution,
synthesis LLM call) are recorded in an effect log. -/

structure RetrievalInput where
  query : String
  request : String
  user_info : String
  database_id : String
deriving DecidableEq, Repr

structure ScriptInput where
  script : List Cmd
  request : String
  user_info : String
deriving DecidableEq, Repr

/-- The tagged union the classification call returns: `DirectResponse`,
`DocumentRetrievalInput` or `ModelZooInfoScript`. -/
inductive Decision where
  | directResponse : String → Decision
  | documentRetrieval : RetrievalInput → Decision
  | modelZooScript : ScriptInput → Decision
deriving DecidableEq, Repr

structure DocumentSearchInput where
  user_question : String
  relevant_context : List String
  user_info : String
deriving DecidableEq, Repr

structure ModelZooInfoScriptResults where
  stdout : String
  stderr : String
  request : String
  user_info : String
deriving DecidableEq, Repr

inductive Effect where
  | storeLookup : String → Effect
  | search : String → String → Nat → Effect
  | scriptRun : Effect
  | synthesis : Effect
deriving DecidableEq, Repr

structure RespondOutcome where
  answer : String
  effects : List Effect
  heap : Heap
  proc : ProcState
deriving DecidableEq, Repr

/-- Python truthiness of `a or b` for an optional string `a`: `None` and
the empty string are falsy. -/
def pyOrStr (a : Option String) (b : String) : String :=
  match a with
  | none => b
  | some s => if s = "" then b else s

/-- Embedding of `respond_to_user`. `docs_store_dict` maps channel ids to
their document stores; `resource_addr` is the heap address of the shared
`resource_items` catalog list; `synthDoc` and `synthScript` are the opaque
final-synthesis LLM calls. A `KeyError` on an unknown channel id is an
`Except.error`. -/
def respond_to_user
    (docs_store_dict : List (String × List ScoredDoc))
    (resource_addr : Nat)
    (synthDoc : DocumentSearchInput → String)
    (synthScript : ModelZooInfoScriptResults → String)
    (channel_id : Option String)
    (req : Decision)
    (heap : Heap) (st : ProcState) : Except String RespondOutcome :=
  match req with
  | .directResponse r =>
      Except.ok { answer := r, effects := [], heap := heap, proc := st }
  | .documentRetrieval ri =>
      let selected_channel := pyOrStr channel_id ri.database_id
      match dictGet docs_store_dict selected_channel with
      | none => Except.error ("KeyError: " ++ selected_channel)
      | some docs_store =>
          let relevant_docs := asimilarity_search docs_store ri.query 3
          let raw_docs := relevant_docs.map (fun d => d.page_content)
          let search_input : DocumentSearchInput :=
            { user_question := ri.request, relevant_context := raw_docs,
              user_info := ri.user_info }
          Except.ok { answer := synthDoc search_input,
                      effects := [Effect.storeLookup selected_channel,
                                  Effect.search selected_channel ri.query 3,
                                  Effect.synthesis],
                      heap := heap, proc := st }
  | .modelZooScript si =>
      let eo := execute_code si.script [("resources", Value.ref resource_addr)] heap st
      let results : ModelZooInfoScriptResults :=
        { stdout := eo.result.stdout, stderr := eo.result.stderr,
          request := si.request, user_info := si.user_info }
      Except.ok { answer := synthScript results,
                  effects := [Effect.scriptRun, Effect.synthesis],
                  heap := eo.heap, proc := eo.proc }

/-! ## Knowledge base registry construction (`load_knowledge_base`)

`kb` maps a collection name to the documents stored on disk for it
(`FAISS.load_local`); a missing index raises, modelled as `Except.error`.
After loading, the Python code asserts every store is non-empty. -/

/-- Embedding of `load_docs_store(db_path, collection_name)`. -/
def load_docs_store (kb : List (String × List ScoredDoc))
    (collection_name : String) : Except String (List ScoredDoc) :=
  match dictGet kb collection_name with
  | some store => Except.ok store
  | none => Except.error ("missing docs store: " ++ collection_name)

/-- The dict comprehension of `load_knowledge_base`, left to right, later
duplicate ids overwriting earlier ones (Python dict semantics). -/
def buildStoreDict (kb : List (String × List ScoredDoc)) :
    List String → List (String × List ScoredDoc) →
    Except String (List (String × List ScoredDoc))
  | [], acc => Except.ok acc
  | c :: rest, acc =>
      match load_docs_store kb c with
      | Except.error e => Except.error e
      | Except.ok store => buildStoreDict kb rest (dictInsert acc c store)

/-- Embedding of `load_knowledge_base()`: build the per-channel store
dict from the manifest ids, then assert every store holds at least one
document (`assert length > 0`). -/
def load_knowledge_base (manifest_ids : List String)
    (kb : List (String × List ScoredDoc)) :
    Except String (List (String × List ScoredDoc)) :=
  match buildStoreDict kb manifest_ids [] with
  | Except.error e => Except.error e
  | Except.ok d =>
      match d.find? (fun p => p.2.isEmpty) with
      | some p => Except.error ("Please make sure the docs store " ++ p.1 ++ " is not empty.")
      | none => Except.ok d

def isErr {ε α : Type} : Except ε α → Bool
  | Except.error _ => true
  | Except.ok _ => false

/-! ## Documentation-retrieval extension (`docs_extension.run_extension`) -/

structure Collection where
  id : String
  description : String
  base_url : Option String
deriving DecidableEq, Repr

structure DocWithScore where
  doc : String
  score : Int
  metadata : List (String × String)
  base_url : Option String
deriving DecidableEq, Repr

/-- The dict comprehension `collection_info_dict` of `run_extension`. -/
def collectionInfoDict (collections : List Collection) : List (String × Collection) :=
  collections.foldl (fun d col => dictInsert d col.id col) []

/-- Embedding of `run_extension(channel_id, req)`: look up the store and
the collection info for the channel (a `KeyError` if absent), run the
similarity search with the fixed `k = 3`, wrap each scored result into a
`DocWithScore` with no filtering, then log the retrieved documents — the
log line indexes entries 0, 1 and 2 of the result list unconditionally, so
a result list shorter than 3 raises an `IndexError`. -/
def run_extension (collections : List Collection)
    (docs_store_dict : List (String × List ScoredDoc))
    (channel_id : String) (req_query : String) :
    Except String (List DocWithScore) :=
  match dictGet docs_store_dict channel_id with
  | none => Except.error ("KeyError: " ++ channel_id)
  | some docs_store =>
      match dictGet (collectionInfoDict collections) channel_id with
      | none => Except.error ("KeyError: " ++ channel_id)
      | some collection_info =>
          let base_url := collection_info.base_url
          let results_with_scores := asimilarity_search docs_store req_query 3
          let docs_with_score := results_with_scores.map (fun d =>
            ({ doc := d.page_content, score := d.score, metadata := d.metadata,
               base_url := base_url } : DocWithScore))
          match docs_with_score.get? 0, docs_with_score.get? 1, docs_with_score.get? 2 with
          | some _, some _, some _ => Except.ok docs_with_score
          | _, _, _ => Except.error "IndexError: list index out of range"

/-! ## Service facade: `UserProfile.parse_obj` and `chat` -/

structure UserProfile where
  name : String
  occupation : String
  background : String
deriving DecidableEq, Repr

/-- Embedding of pydantic `UserProfile.parse_obj(obj)` on the values the
facade can pass: `None` (the default of the omitted `user_profile`
argument) is not a dict and raises a validation error; a dict must carry
all three required fields, each within its declared maximum length. -/
def parse_obj_user_profile (o : Option (List (String × String))) :
    Except String UserProfile :=
  match o with
  | none => Except.error "UserProfile expected dict not NoneType"
  | some d =>
      match dictGet d "name", dictGet d "occupation", dictGet d "background" with
      | some n, some oc, some b =>
          if n.length ≤ 32 then
            if oc.length ≤ 128 then
              if b.length ≤ 256 then Except.ok { name := n, occupation := oc, background := b }
              else Except.error "background: ensure this value has at most 256 characters"
            else Except.error "occupation: ensure this value has at most 128 characters"
          else Except.error "name: ensure this value has at most 32 characters"
      | _, _, _ => Except.error "field required"

structure QuestionWithHistory where
  question : String
  chat_history : List (String × String)
  user_profile : Option UserProfile
  channel_id : Option String
deriving DecidableEq, Repr

/-- Embedding of the remote `chat(text, chat_history, user_profile=None,
channel=None)` operation, up to the construction of the
`QuestionWithHistory` handed to the dispatcher: a truthy `channel` must
name a registered collection (else an assertion error listing the valid
names); then `UserProfile.parse_obj(user_profile)` runs unconditionally on
the given value. -/
def chat (channel_id_by_name : List (String × String))
    (text : String) (chat_history : List (String × String))
    (user_profile : Option (List (String × String)))
    (channel : Option String) : Except String QuestionWithHistory :=
  let truthyChannel : Option String :=
    match channel with
    | none => none
    | some c => if c = "" then none else some c
  match truthyChannel with
  | some c =>
      match dictGet channel_id_by_name c with
      | none =>
          Except.error ("Channel " ++ c ++ " is not found, available channels are " ++
            String.intercalate ", " (channel_id_by_name.map Prod.fst))
      | some cid =>
          match parse_obj_user_profile user_profile with
          | Except.error e => Except.error e
          | Except.ok p =>
              Except.ok { question := text, chat_history := chat_history,
                          user_profile := some p, channel_id := some cid }
  | none =>
      match parse_obj_user_profile user_profile with
      | Except.error e => Except.error e
      | Except.ok p =>
          Except.ok { question := text, chat_history := chat_history,
                      user_profile := some p, channel_id := none }

/-! ## Concrete inputs shared by witnesses and counterexamples -/

/-- A synthesis oracle that concatenates the retrieved context. -/
def synthDocConcat : DocumentSearchInput → String :=
  fun i => String.intercalate ";" i.relevant_context

/-- A synthesis oracle that echoes the script output. -/
def synthScriptStdout : ModelZooInfoScriptResults → String :=
  fun r => r.stdout

/-- A one-document store entry. -/
def oneDoc : ScoredDoc := { page_content := "d", score := 1 }

/-- A four-document store with unsorted, partly negative scores. -/
def store4 : List ScoredDoc :=
  [{ page_content := "a", score := -5 }, { page_content := "b", score := 3 },
   { page_content := "c", score := 0 }, { page_content := "d", score := 7 }]

/-- A one-collection manifest. -/
def collections1 : List Collection :=
  [{ id := "c", description := "docs", base_url := none }]

/-! ## Theorems -/

/-! ### Script sandbox: fault handling (claims C1 and C2) -/

theorem runScript_print_prefix (msgs : List String) :
    ∀ (rest : List Cmd) (env : Env) (heap : Heap) (out : String),
      runScript (msgs.map Cmd.print ++ rest) env heap out =
        runScript rest env heap (msgs.foldl (fun acc s => acc ++ s ++ "\n") out) := by
  induction msgs with
  | nil => intro rest env heap out; rfl
  | cons m ms ih =>
      intro rest env heap out
      simpa [runScript] using ih rest env heap (out ++ m ++ "\n")

/-- Claim C1 (amended): `execute_code` never raises to its caller — it is a
total function into `ExecOutcome`; a script that completes without fault
yields the captured printed output as `stdout` and an empty `stderr`, and
any fault is caught and reported with empty `stdout` and `stderr` equal to
the exception message, which may itself be empty for a message-less
exception. -/
theorem c1_execute_code_catches (script : List Cmd) (ctx : Env) (heap : Heap)
    (st : ProcState) :
    (∀ env, (runScript script ctx heap "").halt = ScriptHalt.completed env →
      (execute_code script ctx heap st).result =
        { stdout := (runScript script ctx heap "").out, stderr := "" }) ∧
    (∀ msg, (runScript script ctx heap "").halt = ScriptHalt.faulted msg →
      (execute_code script ctx heap st).result = { stdout := "", stderr := msg }) := by
  constructor
  · intro env he
    simp [execute_code, he]
  · intro msg hm
    simp [execute_code, hm]

/-- Claim C1, counterexample to the claim as stated: a script raising an
exception constructed with no message is a fault, yet the reported
`stderr` is empty, not non-empty. -/
theorem c1_counterexample :
    (runScript [Cmd.raiseExc ""] [] [] "").halt = ScriptHalt.faulted "" ∧
    (execute_code [Cmd.raiseExc ""] [] [] procInit).result.stderr = "" :=
  ⟨rfl, rfl⟩

/-- Claim C1, witness: a completing script and a faulting script, with the
amended theorem applied at both. -/
theorem c1_witness :
    (execute_code [Cmd.print "ok"] [] [] procInit).result =
      { stdout := "ok\n", stderr := "" } ∧
    (execute_code [Cmd.raiseExc "E"] [] [] procInit).result =
      { stdout := "", stderr := "E" } :=
  ⟨(c1_execute_code_catches [Cmd.print "ok"] [] [] procInit).1 [] rfl,
   (c1_execute_code_catches [Cmd.raiseExc "E"] [] [] procInit).2 "E" rfl⟩

/-- Claim C2 (amended): for a script that prints and then throws, the
result has empty `stdout` — the output produced before the fault is
discarded by the exception handler — and `stderr` equal to the exception
message, non-empty whenever that message is. -/
theorem c2_fault_discards_stdout (msgs : List String) (m : String) (ctx : Env)
    (heap : Heap) (st : ProcState) (hm : m ≠ "") :
    (execute_code (msgs.map Cmd.print ++ [Cmd.raiseExc m]) ctx heap st).result.stdout = "" ∧
    (execute_code (msgs.map Cmd.print ++ [Cmd.raiseExc m]) ctx heap st).result.stderr = m ∧
    (execute_code (msgs.map Cmd.print ++ [Cmd.raiseExc m]) ctx heap st).result.stderr ≠ "" := by
  refine ⟨?_, ?_, ?_⟩ <;>
    simp [execute_code, runScript_print_prefix, runScript, hm]

/-- Claim C2, counterexample to the claim as stated: a script that prints
and then throws yields empty `stdout`, not the pre-fault output. -/
theorem c2_counterexample :
    (execute_code [Cmd.print "hi", Cmd.raiseExc "boom"] [] [] procInit).result.stdout ≠ "hi\n" ∧
    (execute_code [Cmd.print "hi", Cmd.raiseExc "boom"] [] [] procInit).result.stdout = "" := by
  refine ⟨?_, rfl⟩
  decide

/-- Claim C2, witness for the amended theorem. -/
theorem c2_witness :
    (execute_code [Cmd.print "hi", Cmd.raiseExc "boom"] [] [] procInit).result.stdout = "" ∧
    (execute_code [Cmd.print "hi", Cmd.raiseExc "boom"] [] [] procInit).result.stderr = "boom" ∧
    (execute_code [Cmd.print "hi", Cmd.raiseExc "boom"] [] [] procInit).result.stderr ≠ "" :=
  c2_fault_discards_stdout ["hi"] "boom" [] [] procInit (by decide)

/-! ### Script sandbox: stream restoration (claim C9) -/

/-- Claim C9 (confirmed): `execute_code` always restores the interpreter
stream registers: the `finally` block runs on both the completing and the
faulting path, so after the call `sys.stdout` and `sys.stderr` equal the
values they held before it. -/
theorem c9_streams_restored (script : List Cmd) (ctx : Env) (heap : Heap)
    (st : ProcState) :
    (execute_code script ctx heap st).proc.sysStdout = st.sysStdout ∧
    (execute_code script ctx heap st).proc.sysStderr = st.sysStderr :=
  ⟨rfl, rfl⟩

/-! ### Script sandbox: caller-owned data (claim C3) -/

theorem runScript_heap_of_no_append :
    ∀ (script : List Cmd), (∀ c ∈ script, mutatesHeap c = false) →
      ∀ (env : Env) (heap : Heap) (out : String),
        (runScript script env heap out).heap = heap := by
  intro script
  induction script with
  | nil => intro _ env heap out; rfl
  | cons c rest ih =>
      intro h env heap out
      have hrest : ∀ x ∈ rest, mutatesHeap x = false :=
        fun x hx => h x (List.mem_cons_of_mem _ hx)
      cases c with
      | print s => exact ih hrest env heap (out ++ s ++ "\n")
      | raiseExc m => rfl
      | assign x v => exact ih hrest (envSet env x v) heap out
      | append x v =>
          have := h _ (List.mem_cons_self _ _)
          simp [mutatesHeap] at this

/-- Claim C3 (amended): the bindings mapping itself is protected — it is
copied, so a script that only prints, raises or re-assigns its local
variables (in particular one that re-assigns its local `resources`) leaves
every caller-owned object unchanged. The copy is shallow, however: a
script that mutates in place an object the bindings reference (appending
to the `resources` list) changes the caller-visible object. This theorem
proves the protected part: without in-place mutation commands the heap is
unchanged. -/
theorem c3_no_append_preserves_heap (script : List Cmd)
    (h : ∀ c ∈ script, mutatesHeap c = false) (ctx : Env) (heap : Heap)
    (st : ProcState) :
    (execute_code script ctx heap st).heap = heap :=
  runScript_heap_of_no_append script h ctx heap ""

/-- Claim C3, counterexample to the claim as stated: a script that appends
to its `resources` binding mutates the very list object the caller still
holds — `context.copy()` is a shallow copy. -/
theorem c3_counterexample :
    (execute_code [Cmd.append "resources" (Value.num 1)]
        [("resources", Value.ref 0)] [[Value.num 7]] procInit).heap =
      [[Value.num 7, Value.num 1]] ∧
    ([[Value.num 7, Value.num 1]] : Heap) ≠ [[Value.num 7]] := by
  refine ⟨rfl, ?_⟩
  decide

/-- Claim C3, witness: a script that re-assigns its local `resources` and
prints leaves the caller-owned heap object unchanged. -/
theorem c3_witness :
    (execute_code [Cmd.assign "resources" (Value.num 0), Cmd.print "x"]
        [("resources", Value.ref 0)] [[Value.num 7]] procInit).heap =
      [[Value.num 7]] :=
  c3_no_append_preserves_heap _ (by decide) _ _ _

/-! ### Router: the DirectAnswer branch is terminal (claim C5) -/

/-- Claim C5 (confirmed): when classification returns a `DirectResponse`,
the dispatcher returns its `response` field unmodified and performs no
registry lookup, similarity search, script execution or second synthesis
call — the effect log is empty and heap and process state are untouched. -/
theorem c5_direct_answer_terminal (docs_store_dict : List (String × List ScoredDoc))
    (resource_addr : Nat) (synthDoc : DocumentSearchInput → String)
    (synthScript : ModelZooInfoScriptResults → String) (channel_id : Option String)
    (r : String) (heap : Heap) (st : ProcState) :
    respond_to_user docs_store_dict resource_addr synthDoc synthScript channel_id
        (Decision.directResponse r) heap st =
      Except.ok { answer := r, effects := [], heap := heap, proc := st } :=
  rfl

/-! ### Router: channel precedence (claim C4) -/

/-- Claim C4 (amended): when `channel_id` is set to a non-empty string, the
lookup and the similarity search execute against it, whatever
`database_id` classification returned; when `channel_id` is absent the
LLM-chosen `database_id` is used. (The selection is Python `channel_id or
database_id`, so an empty-string `channel_id` is falsy and also falls back
to `database_id` — which is why the claim as stated fails, see the
counterexample.) -/
theorem c4_channel_precedence (docs_store_dict : List (String × List ScoredDoc))
    (resource_addr : Nat) (synthDoc : DocumentSearchInput → String)
    (synthScript : ModelZooInfoScriptResults → String) (ri : RetrievalInput)
    (heap : Heap) (st : ProcState) :
    (∀ (c : String) (store : List ScoredDoc), c ≠ "" →
      dictGet docs_store_dict c = some store →
      ∃ o, respond_to_user docs_store_dict resource_addr synthDoc synthScript
              (some c) (Decision.documentRetrieval ri) heap st = Except.ok o ∧
        o.effects = [Effect.storeLookup c, Effect.search c ri.query 3, Effect.synthesis]) ∧
    (∀ store : List ScoredDoc, dictGet docs_store_dict ri.database_id = some store →
      ∃ o, respond_to_user docs_store_dict resource_addr synthDoc synthScript
              none (Decision.documentRetrieval ri) heap st = Except.ok o ∧
        o.effects = [Effect.storeLookup ri.database_id,
                     Effect.search ri.database_id ri.query 3, Effect.synthesis]) := by
  constructor
  · intro c store hc hstore
    simp only [respond_to_user, pyOrStr, if_neg hc, hstore]
    exact ⟨_, rfl, rfl⟩
  · intro store hstore
    simp only [respond_to_user, pyOrStr, hstore]
    exact ⟨_, rfl, rfl⟩

/-- Claim C4, counterexample to the claim as stated: with `channel_id` set
to the empty string (which is falsy in Python) and a registry containing
both the empty-string channel and the LLM-suggested one, the lookup and
search run against `database_id`, not against the set `channel_id`. -/
theorem c4_counterexample :
    respond_to_user
        [("db", [{ page_content := "docB", score := 1 }]),
         ("", [{ page_content := "docE", score := 1 }])] 0
        synthDocConcat synthScriptStdout (some "")
        (Decision.documentRetrieval
          { query := "q", request := "r", user_info := "u", database_id := "db" })
        [] procInit =
      Except.ok { answer := "docB",
                  effects := [Effect.storeLookup "db", Effect.search "db" "q" 3,
                              Effect.synthesis],
                  heap := [], proc := procInit } ∧
    ("db" : String) ≠ "" := by
  refine ⟨rfl, ?_⟩
  decide

/-- Claim C4, witness: a pinned non-empty channel wins over the suggested
database id, and an absent channel falls back to it. -/
theorem c4_witness :
    (∃ o, respond_to_user
        [("pinned", [{ page_content := "P", score := 2 }]),
         ("db", [{ page_content := "D", score := 1 }])] 0
        synthDocConcat synthScriptStdout (some "pinned")
        (Decision.documentRetrieval
          { query := "q", request := "r", user_info := "u", database_id := "db" })
        [] procInit = Except.ok o ∧
      o.effects = [Effect.storeLookup "pinned", Effect.search "pinned" "q" 3,
                   Effect.synthesis]) ∧
    (∃ o, respond_to_user
        [("pinned", [{ page_content := "P", score := 2 }]),
         ("db", [{ page_content := "D", score := 1 }])] 0
        synthDocConcat synthScriptStdout none
        (Decision.documentRetrieval
          { query := "q", request := "r", user_info := "u", database_id := "db" })
        [] procInit = Except.ok o ∧
      o.effects = [Effect.storeLookup "db", Effect.search "db" "q" 3,
                   Effect.synthesis]) :=
  ⟨(c4_channel_precedence _ 0 synthDocConcat synthScriptStdout _ [] procInit).1
      "pinned" [{ page_content := "P", score := 2 }] (by decide) rfl,
   (c4_channel_precedence _ 0 synthDocConcat synthScriptStdout _ [] procInit).2
      [{ page_content := "D", score := 1 }] rfl⟩

/-! ### Retrieval: fixed top-3 cutoff (claim C6) -/

/-- Claim C6 (confirmed, against the spec-modelled search): for a resolved
configured channel, searching with the fixed cutoff `k = 3` returns at
most 3 documents, ordered by non-increasing relevance score, and applies
no score-threshold filtering — the result length is exactly
`min 3 store.length`, independent of the score values, and every returned
document comes from the store. -/
theorem c6_search_topk (docs_store_dict : List (String × List ScoredDoc))
    (c : String) (store : List ScoredDoc) (q : String)
    (_resolved : dictGet docs_store_dict c = some store) :
    (asimilarity_search store q 3).length ≤ 3 ∧
    (asimilarity_search store q 3).length = min 3 store.length ∧
    List.Pairwise scoreGE (asimilarity_search store q 3) ∧
    ∀ d ∈ asimilarity_search store q 3, d ∈ store := by
  refine ⟨?_, ?_, ?_, ?_⟩
  · rw [asimilarity_search, List.length_take]
    exact min_le_left _ _
  · rw [asimilarity_search, List.length_take, List.length_insertionSort]
  · exact List.Pairwise.sublist (List.take_sublist 3 _)
      (List.sorted_insertionSort scoreGE store)
  · intro d hd
    exact (List.perm_insertionSort scoreGE store).subset
      ((List.take_sublist 3 _).subset hd)

/-- Claim C6, witness: a four-document store with unsorted and negative
scores, resolved from a one-entry registry. -/
theorem c6_witness :
    (asimilarity_search store4 "q" 3).length ≤ 3 ∧
    (asimilarity_search store4 "q" 3).length = min 3 store4.length ∧
    List.Pairwise scoreGE (asimilarity_search store4 "q" 3) ∧
    ∀ d ∈ asimilarity_search store4 "q" 3, d ∈ store4 :=
  c6_search_topk [("ch", store4)] "ch" store4 "q" rfl

/-! ### Registry construction: fail fast on empty stores (claim C7) -/

theorem dictGet_insert_self {α : Type} (d : List (String × α)) (k : String) (v : α) :
    dictGet (dictInsert d k v) k = some v := by
  induction d with
  | nil => simp [dictInsert, dictGet]
  | cons p rest ih =>
      by_cases h : p.1 = k
      · simp [dictInsert, dictGet, h]
      · simp [dictInsert, dictGet, h, ih]

theorem dictGet_insert_ne {α : Type} (d : List (String × α)) (k k2 : String) (v : α)
    (h : k ≠ k2) : dictGet (dictInsert d k v) k2 = dictGet d k2 := by
  induction d with
  | nil => simp [dictInsert, dictGet, h]
  | cons p rest ih =>
      by_cases hp : p.1 = k
      · simp [dictInsert, dictGet, hp, h]
      · simp [dictInsert, dictGet, hp, ih]

theorem dictGet_mem {α : Type} (d : List (String × α)) (k : String) (v : α)
    (h : dictGet d k = some v) : (k, v) ∈ d := by
  induction d with
  | nil => simp [dictGet] at h
  | cons p rest ih =>
      by_cases hp : p.1 = k
      · rw [dictGet, if_pos hp] at h
        have hpkv : p = (k, v) := by
          obtain ⟨p1, p2⟩ := p
          simp only at hp
          simp only [Option.some.injEq] at h
          simp [hp, h]
        rw [hpkv]
        exact List.mem_cons_self _ _
      · rw [dictGet, if_neg hp] at h
        exact List.mem_cons_of_mem _ (ih h)

theorem buildStoreDict_ok_get (kb : List (String × List ScoredDoc)) :
    ∀ (ids : List String) (acc d : List (String × List ScoredDoc)),
      buildStoreDict kb ids acc = Except.ok d →
      ∀ k, dictGet d k = if k ∈ ids then dictGet kb k else dictGet acc k := by
  intro ids
  induction ids with
  | nil =>
      intro acc d hb k
      obtain rfl : acc = d := by simpa [buildStoreDict] using hb
      simp
  | cons c rest ih =>
      intro acc d hb k
      rw [buildStoreDict] at hb
      cases hkb : load_docs_store kb c with
      | error e => rw [hkb] at hb; exact absurd hb (by simp)
      | ok s =>
          rw [hkb] at hb
          have hkbs : dictGet kb c = some s := by
            unfold load_docs_store at hkb
            cases hg : dictGet kb c with
            | none => rw [hg] at hkb; exact absurd hkb (by simp)
            | some t =>
                rw [hg] at hkb
                have hts : t = s := by simpa using hkb
                exact congrArg some hts
          have h1 := ih (dictInsert acc c s) d hb k
          by_cases hkr : k ∈ rest
          · rw [if_pos hkr] at h1
            rw [h1, if_pos (List.mem_cons_of_mem _ hkr)]
          · rw [if_neg hkr] at h1
            by_cases hkc : k = c
            · subst hkc
              rw [h1, dictGet_insert_self, if_pos (List.mem_cons_self _ _), hkbs]
            · rw [h1, dictGet_insert_ne _ _ _ _ (fun he => hkc he.symm),
                if_neg (by simp [hkc, hkr])]

theorem buildStoreDict_ok_kb (kb : List (String × List ScoredDoc)) :
    ∀ (ids : List String) (acc d : List (String × List ScoredDoc)),
      buildStoreDict kb ids acc = Except.ok d →
      ∀ c ∈ ids, ∃ s, dictGet kb c = some s := by
  intro ids
  induction ids with
  | nil => intro acc d _ c hc; simp at hc
  | cons c0 rest ih =>
      intro acc d hb c hc
      rw [buildStoreDict] at hb
      cases hkb : load_docs_store kb c0 with
      | error e => rw [hkb] at hb; exact absurd hb (by simp)
      | ok s =>
          rw [hkb] at hb
          have hkbs : dictGet kb c0 = some s := by
            unfold load_docs_store at hkb
            cases hg : dictGet kb c0 with
            | none => rw [hg] at hkb; exact absurd hkb (by simp)
            | some t =>
                rw [hg] at hkb
                have hts : t = s := by simpa using hkb
                exact congrArg some hts
          rcases List.mem_cons.mp hc with rfl | hcr
          · exact ⟨s, hkbs⟩
          · exact ih (dictInsert acc c0 s) d hb c hcr

/-- Claim C7 (confirmed): building the knowledge-base registry fails
whenever any collection configured in the manifest has a backing store
with zero documents (the per-store `assert length > 0`), and after a
successful build every configured collection id maps to exactly one
non-empty store (dict semantics give one value per key). -/
theorem c7_startup_fail_fast (manifest_ids : List String)
    (kb : List (String × List ScoredDoc)) :
    ((∃ c ∈ manifest_ids, dictGet kb c = some []) →
      isErr (load_knowledge_base manifest_ids kb) = true) ∧
    (∀ d, load_knowledge_base manifest_ids kb = Except.ok d →
      ∀ c ∈ manifest_ids, ∃ s, dictGet d c = some s ∧ s ≠ []) := by
  constructor
  · rintro ⟨c, hc, hkb⟩
    unfold load_knowledge_base
    cases hb : buildStoreDict kb manifest_ids [] with
    | error e => rfl
    | ok d =>
        have hg := buildStoreDict_ok_get kb manifest_ids [] d hb c
        rw [if_pos hc, hkb] at hg
        have hmem : (c, ([] : List ScoredDoc)) ∈ d := dictGet_mem d c [] hg
        cases hf : d.find? (fun p => p.2.isEmpty) with
        | some p => simp [isErr, hf]
        | none =>
            exfalso
            have := List.find?_eq_none.mp hf _ hmem
            simp at this
  · intro d hd c hc
    unfold load_knowledge_base at hd
    cases hb : buildStoreDict kb manifest_ids [] with
    | error e => rw [hb] at hd; simp at hd
    | ok d0 =>
        rw [hb] at hd
        cases hf : d0.find? (fun p => p.2.isEmpty) with
        | some p => simp [hf] at hd
        | none =>
            simp only [hf, Except.ok.injEq] at hd
            subst hd
            obtain ⟨s, hs⟩ := buildStoreDict_ok_kb kb manifest_ids [] d0 hb c hc
            have hg := buildStoreDict_ok_get kb manifest_ids [] d0 hb c
            rw [if_pos hc, hs] at hg
            refine ⟨s, hg, ?_⟩
            have hmem := dictGet_mem d0 c s hg
            have := List.find?_eq_none.mp hf _ hmem
            simpa [List.isEmpty_iff] using this

/-- Claim C7, witness: a manifest whose single collection has an empty
store fails the build, and the same manifest over a one-document store
builds a registry mapping the id to that non-empty store. -/
theorem c7_witness :
    isErr (load_knowledge_base ["a"] [("a", [])]) = true ∧
    (∃ s, dictGet [("a", [oneDoc])] "a" = some s ∧ s ≠ []) :=
  ⟨(c7_startup_fail_fast ["a"] [("a", [])]).1 ⟨"a", by simp, rfl⟩,
   (c7_startup_fail_fast ["a"] [("a", [oneDoc])]).2 [("a", [oneDoc])] rfl "a" (by simp)⟩

/-! ### Service facade: the `user_profile` argument (claim C8) -/

/-- Claim C8 (code bug): the remote `chat` declares `user_profile=None` as
an optional argument, yet unconditionally runs
`UserProfile.parse_obj(user_profile)`, and pydantic `parse_obj` rejects
`None` (not a dict). So a call that omits `user_profile` — even with no
channel, or with a registered channel — fails with a validation error,
although per the claim it should fail only on an unknown channel. This
theorem evaluates the embedded code at the failing input. -/
theorem c8_chat_requires_user_profile :
    chat [("Scikit Image", "scikit-image")] "hi" [] none none =
      Except.error "UserProfile expected dict not NoneType" ∧
    chat [("Scikit Image", "scikit-image")] "hi" [] none (some "Scikit Image") =
      Except.error "UserProfile expected dict not NoneType" :=
  ⟨rfl, rfl⟩

/-! ### Docs extension: unconditional indexing of three results (claim C10) -/

/-- Claim C10 (confirmed): `run_extension` logs the first three retrieved
documents unconditionally, so for any configured channel whose store
yields fewer than 3 search results the call raises an `IndexError` instead
of returning the shorter document list. -/
theorem c10_short_results_raise (collections : List Collection)
    (docs_store_dict : List (String × List ScoredDoc)) (c : String)
    (store : List ScoredDoc) (info : Collection) (q : String)
    (hs : dictGet docs_store_dict c = some store)
    (hinfo : dictGet (collectionInfoDict collections) c = some info)
    (hlen : store.length < 3) :
    run_extension collections docs_store_dict c q =
      Except.error "IndexError: list index out of range" := by
  have h2 : ((asimilarity_search store q 3).map (fun d =>
      ({ doc := d.page_content, score := d.score, metadata := d.metadata,
         base_url := info.base_url } : DocWithScore))).get? 2 = none := by
    rw [List.get?_eq_none, List.length_map, asimilarity_search, List.length_take,
      List.length_insertionSort]
    omega
  unfold run_extension
  simp only [hs, hinfo]
  rw [h2]
  split
  · simp_all
  · rfl

/-- Claim C10, witness: a configured channel backed by a single document
raises instead of returning the one-element list. -/
theorem c10_witness :
    run_extension collections1 [("c", [oneDoc])] "c" "q" =
      Except.error "IndexError: list index out of range" :=
  c10_short_results_raise collections1 [("c", [oneDoc])] "c" [oneDoc]
    { id := "c", description := "docs", base_url := none } "q" rfl rfl (by decide)

end BioChatbot
